import Mathlib

/-!
# Verification of the ops-cli terraform composition sequencer

Shallow embedding of `src/ops/cli/terraform.py` (class `TerraformRunner`):
the composition run loop (`run_v2_compositions`), per-unit configuration
injection (`run_v2_composition`), multi-unit integration entry
(`run_v2_integration`), the version gate (`check_ops_version`) and the
top-level mode dispatch (`run`).

External collaborators (the composition resolver
`TerraformConfigGenerator.get_sorted_compositions`, the file renderer
`generate_files`, the terraform command generator and the process executor)
are modelled as function parameters; the observable interactions with them
are recorded in an event trace.
-/

set_option autoImplicit false
set_option maxRecDepth 40000

namespace OpsCli

/-- A value stored in the cluster configuration mapping: either a plain
string or a nested mapping (the shapes the runner reads and writes). -/
inductive ConfigValue where
  | str (s : String) : ConfigValue
  | table (entries : List (String × ConfigValue)) : ConfigValue

/-- The cluster configuration: an insertion-ordered mapping from string
keys to values, as a Python `dict` (association list with unique keys). -/
abbrev Dict := List (String × ConfigValue)

/-- Python `d[k]` lookup (first matching key). -/
def dictGet : Dict → String → Option ConfigValue
  | [], _ => none
  | p :: rest, k => if p.1 == k then some p.2 else dictGet rest k

/-- Python `d[k] = v`: replace the value at an existing key in place,
otherwise append the new binding at the end. -/
def dictSet : Dict → String → ConfigValue → Dict
  | [], k, v => [(k, v)]
  | p :: rest, k, v => if p.1 == k then (k, v) :: rest else p :: dictSet rest k v

/-- Lookup inside a nested table. -/
def tableGet : List (String × ConfigValue) → String → Option ConfigValue
  | [], _ => none
  | p :: rest, k => if p.1 == k then some p.2 else tableGet rest k

/-! ## Semantic version comparison

`validate_ops_version` is imported by the source from the `ops` package
root, which is not part of the provided sources; it is modelled from the
spec below.  A version string is a dot-separated list of numeric
components, compared component-wise with implicit zero padding. -/

/-- Split a character list at `'.'` separators (accumulator holds the
current component reversed). -/
def splitDots : List Char → List Char → List (List Char)
  | [], cur => [cur.reverse]
  | c :: rest, cur =>
    if c == '.' then cur.reverse :: splitDots rest []
    else splitDots rest (c :: cur)

/-- Parse a non-empty all-digit character list as a number. -/
def parseNatChars (cs : List Char) : Option Nat :=
  match cs with
  | [] => none
  | _ =>
    cs.foldl
      (fun acc c =>
        match acc with
        | none => none
        | some n => if c.isDigit then some (10 * n + (c.toNat - 48)) else none)
      (some 0)

/-- Parse every dotted component. -/
def parseComponents : List (List Char) → Option (List Nat)
  | [] => some []
  | c :: rest =>
    match parseNatChars c, parseComponents rest with
    | some n, some ns => some (n :: ns)
    | _, _ => none

/-- Parse a dotted version string into numeric components
(`none` when some component is not a number, as `StrictVersion` rejects it). -/
def parseVersion (s : String) : Option (List Nat) :=
  parseComponents (splitDots s.data [])

/-- Strict component-wise numeric order on version component lists, with
missing components read as zero. -/
def versionLt : List Nat → List Nat → Bool
  | [], ys => ys.any (fun y => 0 < y)
  | x :: xs, [] => if 0 < x then false else versionLt xs []
  | x :: xs, y :: ys =>
    if x < y then true else if y < x then false else versionLt xs ys

/-- The failures the runner can raise. -/
inductive RunError where
  | versionIncompatible : RunError
  | invalidVersionString : RunError
  | noCompositionsFound (path : String) : RunError
  | renderFailure (composition : String) : RunError
  deriving DecidableEq, Repr

/-- Modelled from the spec: `validate_ops_version` (imported from the `ops`
package root, whose source is not provided) fails with a
version-incompatibility error exactly when the declared minimum
orchestrator version is strictly greater than the running orchestrator's
own version under semantic (component-wise numeric) comparison; a
non-parseable version string is a distinct parse failure. -/
def validate_ops_version (currentVersion opsMinVersion : String) : Except RunError Unit :=
  match parseVersion currentVersion, parseVersion opsMinVersion with
  | some cur, some minv =>
    if versionLt cur minv then Except.error RunError.versionIncompatible
    else Except.ok ()
  | _, _ => Except.error RunError.invalidVersionString

/-! ## UTF-8 and MD5

`run_v2_composition` computes
`hashlib.md5(self.cluster_config_path.encode('utf-8')).hexdigest()[:6]`.
We embed UTF-8 encoding and the MD5 algorithm (RFC 1321) over byte lists,
with 32-bit arithmetic carried out on `Nat` modulo `2 ^ 32`. -/

/-- UTF-8 encoding of a single code point. -/
def utf8EncodeChar (c : Char) : List Nat :=
  let n := c.toNat
  if n < 0x80 then [n]
  else if n < 0x800 then [0xC0 + n / 64, 0x80 + n % 64]
  else if n < 0x10000 then
    [0xE0 + n / 4096, 0x80 + n / 64 % 64, 0x80 + n % 64]
  else
    [0xF0 + n / 262144, 0x80 + n / 4096 % 64, 0x80 + n / 64 % 64, 0x80 + n % 64]

/-- `s.encode('utf-8')` as a list of bytes. -/
def utf8Encode (s : String) : List Nat :=
  s.data.foldr (fun c acc => utf8EncodeChar c ++ acc) []

/-- 32-bit left rotation. -/
def rotl32 (x n : Nat) : Nat :=
  ((x <<< n) ||| (x >>> (32 - n))) % 2 ^ 32

/-- Bitwise complement within 32 bits. -/
def not32 (x : Nat) : Nat := 0xffffffff ^^^ x

/-- The 64 MD5 sine-derived constants `K[i] = floor(2^32 * abs(sin(i+1)))`. -/
def md5K : List Nat :=
  [0xd76aa478, 0xe8c7b756, 0x242070db, 0xc1bdceee,
   0xf57c0faf, 0x4787c62a, 0xa8304613, 0xfd469501,
   0x698098d8, 0x8b44f7af, 0xffff5bb1, 0x895cd7be,
   0x6b901122, 0xfd987193, 0xa679438e, 0x49b40821,
   0xf61e2562, 0xc040b340, 0x265e5a51, 0xe9b6c7aa,
   0xd62f105d, 0x02441453, 0xd8a1e681, 0xe7d3fbc8,
   0x21e1cde6, 0xc33707d6, 0xf4d50d87, 0x455a14ed,
   0xa9e3e905, 0xfcefa3f8, 0x676f02d9, 0x8d2a4c8a,
   0xfffa3942, 0x8771f681, 0x6d9d6122, 0xfde5380c,
   0xa4beea44, 0x4bdecfa9, 0xf6bb4b60, 0xbebfbc70,
   0x289b7ec6, 0xeaa127fa, 0xd4ef3085, 0x04881d05,
   0xd9d4d039, 0xe6db99e5, 0x1fa27cf8, 0xc4ac5665,
   0xf4292244, 0x432aff97, 0xab9423a7, 0xfc93a039,
   0x655b59c3, 0x8f0ccc92, 0xffeff47d, 0x85845dd1,
   0x6fa87e4f, 0xfe2ce6e0, 0xa3014314, 0x4e0811a1,
   0xf7537e82, 0xbd3af235, 0x2ad7d2bb, 0xeb86d391]

/-- The 64 MD5 per-operation rotation amounts. -/
def md5S : List Nat :=
  [7, 12, 17, 22, 7, 12, 17, 22, 7, 12, 17, 22, 7, 12, 17, 22,
   5, 9, 14, 20, 5, 9, 14, 20, 5, 9, 14, 20, 5, 9, 14, 20,
   4, 11, 16, 23, 4, 11, 16, 23, 4, 11, 16, 23, 4, 11, 16, 23,
   6, 10, 15, 21, 6, 10, 15, 21, 6, 10, 15, 21, 6, 10, 15, 21]

/-- The four running 32-bit state words of MD5. -/
structure MD5State where
  a : Nat
  b : Nat
  c : Nat
  d : Nat
  deriving DecidableEq, Repr

/-- One of the 64 MD5 operations on state `st`, given the 16 message
words `m` of the current chunk. -/
def md5Op (m : List Nat) (i : Nat) (st : MD5State) : MD5State :=
  let f :=
    if i < 16 then (st.b &&& st.c) ||| (not32 st.b &&& st.d)
    else if i < 32 then (st.d &&& st.b) ||| (not32 st.d &&& st.c)
    else if i < 48 then st.b ^^^ st.c ^^^ st.d
    else st.c ^^^ (st.b ||| not32 st.d)
  let g :=
    if i < 16 then i
    else if i < 32 then (5 * i + 1) % 16
    else if i < 48 then (3 * i + 5) % 16
    else (7 * i) % 16
  let f2 := (f + st.a + md5K.getD i 0 + m.getD g 0) % 2 ^ 32
  ⟨st.d, (st.b + rotl32 f2 (md5S.getD i 0)) % 2 ^ 32, st.b, st.c⟩

/-- Decode 64 bytes into 16 little-endian 32-bit words. -/
def bytesToWords (bytes : List Nat) : List Nat :=
  (List.range 16).map (fun j =>
    bytes.getD (4 * j) 0 + 256 * bytes.getD (4 * j + 1) 0 +
    65536 * bytes.getD (4 * j + 2) 0 + 16777216 * bytes.getD (4 * j + 3) 0)

/-- Process one 64-byte chunk: run the 64 operations, then add the result
into the state modulo `2 ^ 32`. -/
def md5Chunk (st : MD5State) (chunk : List Nat) : MD5State :=
  let m := bytesToWords chunk
  let r := (List.range 64).foldl (fun s i => md5Op m i s) st
  ⟨(st.a + r.a) % 2 ^ 32, (st.b + r.b) % 2 ^ 32,
   (st.c + r.c) % 2 ^ 32, (st.d + r.d) % 2 ^ 32⟩

/-- MD5 padding: append `0x80`, zero bytes to 56 mod 64, then the original
length in bits as 8 little-endian bytes. -/
def md5Pad (msg : List Nat) : List Nat :=
  let padLen := (119 - msg.length % 64) % 64
  msg ++ 0x80 :: List.replicate padLen 0 ++
    (List.range 8).map (fun i => ((8 * msg.length) >>> (8 * i)) % 256)

/-- Fold the chunk function over successive 64-byte chunks (structural
recursion on fuel so the kernel can evaluate it). -/
def md5Chunks (fuel : Nat) (st : MD5State) (bytes : List Nat) : MD5State :=
  match fuel with
  | 0 => st
  | fuel + 1 =>
    match bytes with
    | [] => st
    | _ => md5Chunks fuel (md5Chunk st (bytes.take 64)) (bytes.drop 64)

/-- Hex digit character (lowercase). -/
def hexDigit (n : Nat) : Char :=
  if n < 10 then Char.ofNat (48 + n) else Char.ofNat (87 + n)

/-- Two lowercase hex characters of one byte. -/
def byteHex (b : Nat) : String :=
  String.mk [hexDigit (b / 16 % 16), hexDigit (b % 16)]

/-- A 32-bit word rendered as 8 hex characters, little-endian byte order. -/
def wordHexLE (w : Nat) : String :=
  byteHex (w % 256) ++ byteHex (w / 256 % 256) ++
    byteHex (w / 65536 % 256) ++ byteHex (w / 16777216 % 256)

/-- `hashlib.md5(bytes).hexdigest()`: the 32-character lowercase hex
digest of a byte list. -/
def md5Hex (bytes : List Nat) : String :=
  let padded := md5Pad bytes
  let st := md5Chunks (padded.length / 64 + 1)
    ⟨0x67452301, 0xefcdab89, 0x98badcfe, 0x10325476⟩ padded
  wordHexLE st.a ++ wordHexLE st.b ++ wordHexLE st.c ++ wordHexLE st.d

/-- Python string slice `s[:n]` (first `n` characters). -/
def strTake (s : String) (n : Nat) : String :=
  String.mk (s.data.take n)

/-! ## The runner -/

/-- Observable interactions of the runner with its collaborators and the
process environment, in the order they occur. -/
inductive Event where
  /-- `os.environ[name] = value`. -/
  | setEnvVar (name value : String) : Event
  /-- `tf_config_generator.get_sorted_compositions(..., reverse=reverse)`. -/
  | resolveCompositions (reverse : Bool) : Event
  /-- `tf_config_generator.generate_files(config_path, terraform_path, composition)`. -/
  | generateFiles (composition : String) : Event
  /-- `self.execute(command)` for the command built for `composition`. -/
  | executeUnit (composition : String) : Event
  /-- The error log emitted when a composition's exit code is non-zero. -/
  | errorNotice (composition : String) : Event
  /-- The skip log emitted for a composition after a previous failure. -/
  | skipNotice (composition : String) : Event
  /-- `run_v1_integration`: the single delegation to the command generator. -/
  | runSingleComposition : Event
  deriving DecidableEq, Repr

/-- The parsed CLI arguments the sequencer itself interprets; all other
flags are opaque pass-through to the command generator collaborator. -/
structure Args where
  subcommand : String
  terraform_path : Option String

/-- The state of a `TerraformRunner` instance: its constructor arguments,
with the filesystem fact `os.path.isdir(cluster_config_path)` made
explicit. -/
structure TerraformRunner where
  cluster_config_path : String
  /-- `self.cluster_config` / `self.cluster_config.conf`: the shared
  mutable cluster configuration mapping. -/
  conf : Dict
  /-- `self.ops_config.terraform_config_path`. -/
  terraform_config_path : String
  /-- The running orchestrator's own version (from package metadata). -/
  ops_version : String
  /-- `os.path.isdir(self.cluster_config_path)`. -/
  isDir : Bool

/-- Result of the multi-unit loop: either a propagated exception or the
final `return_code`, together with the final cluster configuration and the
event trace. -/
structure LoopResult where
  outcome : Except RunError Int
  config : Dict
  events : List Event

/-- Result of a whole `run`: outcome, final process environment, final
cluster configuration and event trace. -/
structure FullRunResult where
  outcome : Except RunError Int
  env : String → Option String
  config : Dict
  events : List Event

/-- `os.environ[k] = v`. -/
def envSet (env : String → Option String) (k v : String) : String → Option String :=
  fun x => if x == k then some v else env x

/-- `os.path.join(p, '')`: ensure a trailing path separator. -/
def joinTrailingSlash (p : String) : String :=
  if p.endsWith "/" then p else p ++ "/"

/-- `check_ops_version`: look up `"ops_min_version"` inside the
`"terraform"` section of the cluster configuration and validate it; no-op
when the section or the key is absent. -/
def check_ops_version (r : TerraformRunner) : Except RunError Unit :=
  match dictGet r.conf "terraform" with
  | some (ConfigValue.table t) =>
    match tableGet t "ops_min_version" with
    | some (ConfigValue.str v) => validate_ops_version r.ops_version v
    | some (ConfigValue.table _) => Except.error RunError.invalidVersionString
    | none => Except.ok ()
  | _ => Except.ok ()

/-- `hashlib.md5(cluster_config_path.encode('utf-8')).hexdigest()[:6]`. -/
def cluster_id (clusterConfigPath : String) : String :=
  strTake (md5Hex (utf8Encode clusterConfigPath)) 6

/-- The configuration mutation performed by `run_v2_composition`: install a
fresh `terraform` section holding the unit's path and the fixed variables
file name, and the synthetic `cluster` identity derived from the
configuration path. -/
def run_v2_composition_config (clusterConfigPath terraformPath composition : String)
    (config : Dict) : Dict :=
  let config := dictSet config "terraform"
    (ConfigValue.table
      [("path", ConfigValue.str (terraformPath ++ composition)),
       ("variables_file", ConfigValue.str "variables.tfvars.json")])
  dictSet config "cluster"
    (ConfigValue.str ("auto_generated_" ++ cluster_id clusterConfigPath))

/-- The loop body of `run_v2_compositions`, threading the Python locals
`should_finish` and `return_code`.  `genOk c` tells whether
`generate_files` succeeds for composition `c` (an exception propagates out
of the loop); `execStatus c` is the executor's exit status for the command
built for `c`. -/
def run_v2_compositions_loop (genOk : String → Bool) (execStatus : String → Int)
    (ccPath tfPath : String) (compositions : List String) (config : Dict)
    (shouldFinish : Bool) (returnCode : Int) : LoopResult :=
  match compositions with
  | [] => ⟨Except.ok returnCode, config, []⟩
  | c :: rest =>
    if shouldFinish then
      let r := run_v2_compositions_loop genOk execStatus ccPath tfPath rest config
        shouldFinish returnCode
      ⟨r.outcome, r.config, Event.skipNotice c :: r.events⟩
    else if genOk c then
      let config2 := run_v2_composition_config ccPath tfPath c config
      let rc := execStatus c
      let r := run_v2_compositions_loop genOk execStatus ccPath tfPath rest config2
        (rc != 0) rc
      ⟨r.outcome, r.config,
        Event.generateFiles c :: Event.executeUnit c ::
          ((if rc != 0 then [Event.errorNotice c] else []) ++ r.events)⟩
    else
      ⟨Except.error (RunError.renderFailure c), config, [Event.generateFiles c]⟩

/-- `run_v2_compositions`: iterate the resolved compositions with
`should_finish = False` and `return_code = 0`. -/
def run_v2_compositions (genOk : String → Bool) (execStatus : String → Int)
    (ccPath tfPath : String) (config : Dict) (compositions : List String) : LoopResult :=
  run_v2_compositions_loop genOk execStatus ccPath tfPath compositions config false 0

/-- `run_v2_integration`: resolve the composition order (reversed exactly
for `destroy`), fail hard when none were found, otherwise run the loop.
`resolve path reverse` models
`tf_config_generator.get_sorted_compositions(path, reverse=reverse)`. -/
def run_v2_integration (resolve : String → Bool → List String) (genOk : String → Bool)
    (execStatus : String → Int) (args : Args) (clusterConfigPath : String)
    (config : Dict) : LoopResult :=
  let config_path := joinTrailingSlash clusterConfigPath
  let terraform_path :=
    (match args.terraform_path with
     | none => "../ee-k8s-infra/"
     | some p => joinTrailingSlash p) ++ "compositions/terraform/"
  let reverse_order := args.subcommand == "destroy"
  let compositions := resolve config_path reverse_order
  if compositions.length = 0 then
    ⟨Except.error (RunError.noCompositionsFound config_path), config,
      [Event.resolveCompositions reverse_order]⟩
  else
    let r := run_v2_compositions genOk execStatus clusterConfigPath terraform_path
      config compositions
    ⟨r.outcome, r.config, Event.resolveCompositions reverse_order :: r.events⟩

/-- `run`: version gate, environment preparation, then the binary mode
dispatch on `os.path.isdir(cluster_config_path)`.  `v1Status` is the exit
status the command generator collaborator produces in single-unit mode. -/
def run (resolve : String → Bool → List String) (genOk : String → Bool)
    (execStatus : String → Int) (v1Status : Int) (r : TerraformRunner) (args : Args)
    (env : String → Option String) : FullRunResult :=
  match check_ops_version r with
  | Except.error e => ⟨Except.error e, env, r.conf, []⟩
  | Except.ok () =>
    let terraform_config_path := (env "TF_CLI_CONFIG_FILE").getD r.terraform_config_path
    let env2 := envSet env "TF_CLI_CONFIG_FILE" terraform_config_path
    if r.isDir then
      let v2 := run_v2_integration resolve genOk execStatus args r.cluster_config_path r.conf
      ⟨v2.outcome, env2, v2.config,
        Event.setEnvVar "TF_CLI_CONFIG_FILE" terraform_config_path :: v2.events⟩
    else
      ⟨Except.ok v1Status, env2, r.conf,
        [Event.setEnvVar "TF_CLI_CONFIG_FILE" terraform_config_path,
         Event.runSingleComposition]⟩

/-- The pair of events one successfully processed composition contributes
to the trace: file generation immediately followed by execution. -/
def execEvents : List String → List Event
  | [] => []
  | c :: rest => Event.generateFiles c :: Event.executeUnit c :: execEvents rest

/-- The cluster configuration after the injections of a run of
successfully processed compositions. -/
def prefixedConfig (ccPath tfPath : String) : List String → Dict → Dict
  | [], config => config
  | c :: rest, config =>
    prefixedConfig ccPath tfPath rest (run_v2_composition_config ccPath tfPath c config)

/-! ## Helper lemmas -/

theorem dictGet_dictSet_self (d : Dict) (k : String) (v : ConfigValue) :
    dictGet (dictSet d k v) k = some v := by
  induction d with
  | nil => simp [dictSet, dictGet]
  | cons p rest ih =>
    cases hpk : p.1 == k with
    | true => simp [dictSet, dictGet, hpk]
    | false => simp [dictSet, dictGet, hpk, ih]

theorem dictGet_dictSet_ne (d : Dict) (k k2 : String) (v : ConfigValue) (h : k2 ≠ k) :
    dictGet (dictSet d k v) k2 = dictGet d k2 := by
  have hk : (k == k2) = false := beq_eq_false_iff_ne.mpr (Ne.symm h)
  induction d with
  | nil => simp [dictSet, dictGet, hk]
  | cons p rest ih =>
    cases hpk : p.1 == k with
    | true =>
      have : p.1 = k := eq_of_beq hpk
      simp [dictSet, dictGet, hpk, hk, this]
    | false => simp [dictSet, dictGet, hpk, ih]

theorem loop_halted (genOk : String → Bool) (execStatus : String → Int)
    (ccPath tfPath : String) (cs : List String) (config : Dict) (rc : Int) :
    run_v2_compositions_loop genOk execStatus ccPath tfPath cs config true rc =
      ⟨Except.ok rc, config, cs.map Event.skipNotice⟩ := by
  induction cs with
  | nil => rfl
  | cons c rest ih => simp [run_v2_compositions_loop, ih]

theorem loop_all_ok_append (genOk : String → Bool) (execStatus : String → Int)
    (ccPath tfPath : String) (pre cs : List String) (config : Dict)
    (h : ∀ x ∈ pre, genOk x = true ∧ execStatus x = 0) :
    run_v2_compositions_loop genOk execStatus ccPath tfPath (pre ++ cs) config false 0 =
      ⟨(run_v2_compositions_loop genOk execStatus ccPath tfPath cs
          (prefixedConfig ccPath tfPath pre config) false 0).outcome,
       (run_v2_compositions_loop genOk execStatus ccPath tfPath cs
          (prefixedConfig ccPath tfPath pre config) false 0).config,
       execEvents pre ++
         (run_v2_compositions_loop genOk execStatus ccPath tfPath cs
            (prefixedConfig ccPath tfPath pre config) false 0).events⟩ := by
  induction pre generalizing config with
  | nil => simp [prefixedConfig, execEvents]
  | cons c rest ih =>
    have hc := h c (List.mem_cons_self c rest)
    have hrest : ∀ x ∈ rest, genOk x = true ∧ execStatus x = 0 :=
      fun x hx => h x (List.mem_cons_of_mem c hx)
    simp [run_v2_compositions_loop, hc.1, hc.2, prefixedConfig, execEvents,
      ih _ hrest]

theorem setEnvVar_not_mem_loop (genOk : String → Bool) (execStatus : String → Int)
    (ccPath tfPath n v : String) (cs : List String) (config : Dict)
    (sf : Bool) (rc : Int) :
    Event.setEnvVar n v ∉
      (run_v2_compositions_loop genOk execStatus ccPath tfPath cs config sf rc).events := by
  induction cs generalizing config sf rc with
  | nil => simp [run_v2_compositions_loop]
  | cons c rest ih =>
    cases sf with
    | true => simp [run_v2_compositions_loop]; exact ih _ _ _
    | false =>
      cases hg : genOk c with
      | false => simp [run_v2_compositions_loop, hg]
      | true =>
        cases hrc : execStatus c != 0 with
        | false => simp [run_v2_compositions_loop, hg, hrc]; exact ih _ _ _
        | true => simp [run_v2_compositions_loop, hg, hrc]; exact ih _ _ _

theorem resolveCompositions_not_mem_loop (genOk : String → Bool)
    (execStatus : String → Int) (ccPath tfPath : String) (b : Bool)
    (cs : List String) (config : Dict) (sf : Bool) (rc : Int) :
    Event.resolveCompositions b ∉
      (run_v2_compositions_loop genOk execStatus ccPath tfPath cs config sf rc).events := by
  induction cs generalizing config sf rc with
  | nil => simp [run_v2_compositions_loop]
  | cons c rest ih =>
    cases sf with
    | true => simp [run_v2_compositions_loop]; exact ih _ _ _
    | false =>
      cases hg : genOk c with
      | false => simp [run_v2_compositions_loop, hg]
      | true =>
        cases hrc : execStatus c != 0 with
        | false => simp [run_v2_compositions_loop, hg, hrc]; exact ih _ _ _
        | true => simp [run_v2_compositions_loop, hg, hrc]; exact ih _ _ _

/-! ## Claim theorems -/

/-- C1: Run-loop halt semantics.  For any ordered composition sequence and
any executor statuses, if `c` is the first unit with non-zero status
(`pre` before it all return 0), the loop generates and executes exactly
`pre ++ [c]`, each unit exactly once with generation immediately before
execution in order, skips every later unit, and returns `c`'s status; if
every unit returns 0 the loop returns 0 and every unit is generated and
executed exactly once in order. -/
theorem run_loop_halt_semantics (execStatus : String → Int)
    (ccPath tfPath : String) (config : Dict) :
    (∀ pre c post, (∀ x ∈ pre, execStatus x = 0) → execStatus c ≠ 0 →
      (run_v2_compositions (fun _ => true) execStatus ccPath tfPath config
          (pre ++ c :: post)).outcome = Except.ok (execStatus c)
      ∧ (run_v2_compositions (fun _ => true) execStatus ccPath tfPath config
          (pre ++ c :: post)).events
        = execEvents pre ++ Event.generateFiles c :: Event.executeUnit c ::
            Event.errorNotice c :: post.map Event.skipNotice)
  ∧ (∀ cs, (∀ x ∈ cs, execStatus x = 0) →
      (run_v2_compositions (fun _ => true) execStatus ccPath tfPath config cs).outcome
          = Except.ok 0
      ∧ (run_v2_compositions (fun _ => true) execStatus ccPath tfPath config cs).events
          = execEvents cs) := by
  constructor
  · intro pre c post hpre hc
    have hp : ∀ x ∈ pre, (fun _ : String => true) x = true ∧ execStatus x = 0 :=
      fun x hx => ⟨rfl, hpre x hx⟩
    have key := loop_all_ok_append (fun _ => true) execStatus ccPath tfPath pre
      (c :: post) config hp
    have hrc : (execStatus c != 0) = true := by simpa using hc
    unfold run_v2_compositions
    rw [key]
    simp [run_v2_compositions_loop, hrc, loop_halted]
  · intro cs hcs
    have hp : ∀ x ∈ cs, (fun _ : String => true) x = true ∧ execStatus x = 0 :=
      fun x hx => ⟨rfl, hcs x hx⟩
    have key := loop_all_ok_append (fun _ => true) execStatus ccPath tfPath cs [] config hp
    rw [List.append_nil] at key
    unfold run_v2_compositions
    rw [key]
    simp [run_v2_compositions_loop]

/-- Witness for C1: with statuses 0 for `a`, 2 for `b`, the run over
`[a, b, c]` returns 2 and processes exactly `a` then `b`, skipping `c`;
with all statuses 0 the run over `[a, c]` returns 0 and processes both. -/
theorem run_loop_halt_semantics_witness :
    ((run_v2_compositions (fun _ => true) (fun s => if s == "b" then 2 else 0) "p" "t/" []
        (["a"] ++ "b" :: ["c"])).outcome
      = Except.ok ((fun s : String => if s == "b" then 2 else 0) "b")
    ∧ (run_v2_compositions (fun _ => true) (fun s => if s == "b" then 2 else 0) "p" "t/" []
        (["a"] ++ "b" :: ["c"])).events
      = execEvents ["a"] ++ Event.generateFiles "b" :: Event.executeUnit "b" ::
          Event.errorNotice "b" :: (["c"].map Event.skipNotice))
  ∧ ((run_v2_compositions (fun _ => true) (fun s => if s == "b" then 2 else 0) "p" "t/" []
        ["a", "c"]).outcome = Except.ok 0
    ∧ (run_v2_compositions (fun _ => true) (fun s => if s == "b" then 2 else 0) "p" "t/" []
        ["a", "c"]).events = execEvents ["a", "c"]) :=
  ⟨(run_loop_halt_semantics (fun s => if s == "b" then 2 else 0) "p" "t/" []).1
      ["a"] "b" ["c"] (by decide) (by decide),
   (run_loop_halt_semantics (fun s => if s == "b" then 2 else 0) "p" "t/" []).2
      ["a", "c"] (by decide)⟩

/-- C8 counterexample: with three compositions where file generation fails
for the second (executor statuses all 0), the loop does **not** skip the
third unit with a skip notice, and the failure is a propagated exception,
not a recorded exit status: the trace stops at the failed generation. -/
theorem render_failure_not_skipped_counterexample :
    (run_v2_compositions (fun c => !(c == "b")) (fun _ => 0) "p" "t/" []
        ["a", "b", "c"]).outcome = Except.error (RunError.renderFailure "b")
  ∧ Event.skipNotice "c" ∉
      (run_v2_compositions (fun c => !(c == "b")) (fun _ => 0) "p" "t/" []
        ["a", "b", "c"]).events
  ∧ (run_v2_compositions (fun c => !(c == "b")) (fun _ => 0) "p" "t/" []
        ["a", "b", "c"]).events
      = [Event.generateFiles "a", Event.executeUnit "a", Event.generateFiles "b"] := by
  refine ⟨rfl, by decide, by decide⟩

/-- C8 (amended): if generating a unit's configuration files fails, the
failure propagates immediately out of the loop — the unit is not executed
and no later unit is generated or executed — but unlike an executor
failure the remaining units receive no skip notices and the run surfaces a
raised failure rather than a recorded exit status. -/
theorem render_failure_propagates (genOk : String → Bool) (execStatus : String → Int)
    (ccPath tfPath : String) (config : Dict) (pre : List String) (c : String)
    (post : List String) (hpre : ∀ x ∈ pre, genOk x = true ∧ execStatus x = 0)
    (hc : genOk c = false) :
    (run_v2_compositions genOk execStatus ccPath tfPath config (pre ++ c :: post)).outcome
      = Except.error (RunError.renderFailure c)
  ∧ (run_v2_compositions genOk execStatus ccPath tfPath config (pre ++ c :: post)).events
      = execEvents pre ++ [Event.generateFiles c] := by
  have key := loop_all_ok_append genOk execStatus ccPath tfPath pre (c :: post) config hpre
  unfold run_v2_compositions
  rw [key]
  simp [run_v2_compositions_loop, hc]

/-- Witness for the amended C8: generation fails at `b` after a clean `a`;
the outcome is the propagated rendering failure and the trace stops there. -/
theorem render_failure_propagates_witness :
    (run_v2_compositions (fun c => !(c == "b")) (fun _ => 0) "p" "t/" []
        (["a"] ++ "b" :: ["c"])).outcome = Except.error (RunError.renderFailure "b")
  ∧ (run_v2_compositions (fun c => !(c == "b")) (fun _ => 0) "p" "t/" []
        (["a"] ++ "b" :: ["c"])).events
      = execEvents ["a"] ++ [Event.generateFiles "b"] :=
  render_failure_propagates (fun c => !(c == "b")) (fun _ => 0) "p" "t/" []
    ["a"] "b" ["c"] (by decide) (by decide)

/-- C2: Empty-composition fatal stop.  When the resolver returns no
compositions, `run_v2_integration` fails with the no-compositions error —
a raised failure, not a loop exit code — and the trace shows only the
resolver call: no configuration generation and no executor invocation. -/
theorem empty_compositions_fatal (resolve : String → Bool → List String)
    (genOk : String → Bool) (execStatus : String → Int) (args : Args)
    (ccPath : String) (config : Dict)
    (h : resolve (joinTrailingSlash ccPath) (args.subcommand == "destroy") = []) :
    (run_v2_integration resolve genOk execStatus args ccPath config).outcome
      = Except.error (RunError.noCompositionsFound (joinTrailingSlash ccPath))
  ∧ (run_v2_integration resolve genOk execStatus args ccPath config).events
      = [Event.resolveCompositions (args.subcommand == "destroy")] := by
  constructor <;> simp [run_v2_integration, h]

/-- Witness for C2: a resolver that discovers nothing makes the
integration fail before any generation or execution. -/
theorem empty_compositions_fatal_witness :
    (run_v2_integration (fun _ _ => []) (fun _ => true) (fun _ => 0)
        ⟨"plan", none⟩ "p" []).outcome
      = Except.error (RunError.noCompositionsFound (joinTrailingSlash "p"))
  ∧ (run_v2_integration (fun _ _ => []) (fun _ => true) (fun _ => 0)
        ⟨"plan", none⟩ "p" []).events
      = [Event.resolveCompositions (("plan" : String) == "destroy")] :=
  empty_compositions_fatal (fun _ _ => []) (fun _ => true) (fun _ => 0)
    ⟨"plan", none⟩ "p" [] rfl

/-- C3: Destroy reversal.  The resolver is invoked exactly once, first,
with `reverse` equal to the test `subcommand == "destroy"`: `true` iff the
requested subcommand is `destroy`, `false` for every other subcommand. -/
theorem destroy_reversal (resolve : String → Bool → List String)
    (genOk : String → Bool) (execStatus : String → Int) (args : Args)
    (ccPath : String) (config : Dict) :
    (run_v2_integration resolve genOk execStatus args ccPath config).events.head?
      = some (Event.resolveCompositions (args.subcommand == "destroy"))
  ∧ ∀ b, Event.resolveCompositions b ∈
      (run_v2_integration resolve genOk execStatus args ccPath config).events →
      (b = true ↔ args.subcommand = "destroy") := by
  by_cases h :
      (resolve (joinTrailingSlash ccPath) (args.subcommand == "destroy")).length = 0
  · constructor
    · simp [run_v2_integration, h]
    · intro b hb
      simp [run_v2_integration, h] at hb
      simp [hb]
  · constructor
    · simp [run_v2_integration, h]
    · intro b hb
      simp [run_v2_integration, run_v2_compositions, h] at hb
      rcases hb with hb | hb
      · simp [hb]
      · exact absurd hb
          (resolveCompositions_not_mem_loop genOk execStatus ccPath _ b _ config false 0)

/-- Witness for C3: with a non-empty resolver, subcommand `destroy` leads
the trace with a reversed resolve, `apply` with a non-reversed one, and
the recorded reverse flag is true exactly for `destroy`. -/
theorem destroy_reversal_witness :
    (run_v2_integration (fun _ _ => ["network"]) (fun _ => true) (fun _ => 0)
        ⟨"destroy", none⟩ "p" []).events.head?
      = some (Event.resolveCompositions (("destroy" : String) == "destroy"))
  ∧ (run_v2_integration (fun _ _ => ["network"]) (fun _ => true) (fun _ => 0)
        ⟨"apply", none⟩ "p" []).events.head?
      = some (Event.resolveCompositions (("apply" : String) == "destroy"))
  ∧ (true = true ↔ ("destroy" : String) = "destroy") :=
  ⟨(destroy_reversal (fun _ _ => ["network"]) (fun _ => true) (fun _ => 0)
      ⟨"destroy", none⟩ "p" []).1,
   (destroy_reversal (fun _ _ => ["network"]) (fun _ => true) (fun _ => 0)
      ⟨"apply", none⟩ "p" []).1,
   (destroy_reversal (fun _ _ => ["network"]) (fun _ => true) (fun _ => 0)
      ⟨"destroy", none⟩ "p" []).2 true (by decide)⟩

/-- C4: Version gate raises-iff.  `check_ops_version` fails with the
version-incompatibility error exactly when the configuration has a
`terraform` section declaring an `ops_min_version` strictly greater than
the running orchestrator's version under semantic comparison; with no
`terraform` section, or one without `ops_min_version`, it is a no-op. -/
theorem version_gate_raises_iff (r : TerraformRunner) :
    (check_ops_version r = Except.error RunError.versionIncompatible ↔
      ∃ t v cur minv,
        dictGet r.conf "terraform" = some (ConfigValue.table t)
        ∧ tableGet t "ops_min_version" = some (ConfigValue.str v)
        ∧ parseVersion r.ops_version = some cur
        ∧ parseVersion v = some minv
        ∧ versionLt cur minv = true)
  ∧ (dictGet r.conf "terraform" = none → check_ops_version r = Except.ok ())
  ∧ (∀ t, dictGet r.conf "terraform" = some (ConfigValue.table t) →
      tableGet t "ops_min_version" = none → check_ops_version r = Except.ok ()) := by
  refine ⟨⟨?_, ?_⟩, ?_, ?_⟩
  · intro h
    unfold check_ops_version at h
    split at h
    case _ t heqT =>
      split at h
      case _ v heqV =>
        unfold validate_ops_version at h
        split at h
        case _ cur minv heqC heqM =>
          split at h
          case isTrue hlt => exact ⟨t, v, cur, minv, heqT, heqV, heqC, heqM, hlt⟩
          case isFalse => simp at h
        case _ => simp at h
      case _ t2 heqV => simp at h
      case _ heqV => simp at h
    case _ heqT => simp at h
  · rintro ⟨t, v, cur, minv, h1, h2, h3, h4, h5⟩
    simp [check_ops_version, h1, h2, validate_ops_version, h3, h4, h5]
  · intro h
    simp [check_ops_version, h]
  · intro t h1 h2
    simp [check_ops_version, h1, h2]

/-- Witness for C4: a declared minimum of `2.1.0` against running version
`2.0.0` raises; a configuration without a `terraform` section is a no-op. -/
theorem version_gate_raises_iff_witness :
    check_ops_version
        ⟨"p", [("terraform", ConfigValue.table
            [("ops_min_version", ConfigValue.str "2.1.0")])], "cfg", "2.0.0", false⟩
      = Except.error RunError.versionIncompatible
  ∧ check_ops_version ⟨"p", [("region", ConfigValue.str "va6")], "cfg", "2.0.0", false⟩
      = Except.ok () :=
  ⟨(version_gate_raises_iff _).1.mpr
      ⟨_, _, [2, 0, 0], [2, 1, 0], rfl, rfl, by decide, by decide, by decide⟩,
   (version_gate_raises_iff _).2.1 rfl⟩

theorem byteHex_length (b : Nat) : (byteHex b).length = 2 := rfl

theorem wordHexLE_length (w : Nat) : (wordHexLE w).length = 8 := by
  simp [wordHexLE, String.length_append, byteHex_length]

theorem md5Hex_length (bs : List Nat) : (md5Hex bs).length = 32 := by
  simp [md5Hex, String.length_append, wordHexLE_length]

theorem length_mk (l : List Char) : (String.mk l).length = l.length := rfl

theorem cluster_id_length (p : String) : (cluster_id p).length = 6 := by
  have hd : (md5Hex (utf8Encode p)).data.length = 32 := md5Hex_length (utf8Encode p)
  unfold cluster_id strTake
  rw [length_mk, List.length_take, hd]
  decide

/-- C7: Identity determinism.  The synthetic `cluster` identity injected by
`run_v2_composition` is a pure function of the cluster configuration path:
it equals `auto_generated_` followed by `cluster_id path` (the first 6 hex
characters of the MD5 digest of the path), so two invocations with the
same path — regardless of composition, terraform path or prior
configuration — inject the identical 6-character identity, while distinct
paths can be told apart (concrete pair exhibited). -/
theorem identity_deterministic (path tp1 tp2 c1 c2 : String) (cfg1 cfg2 : Dict) :
    dictGet (run_v2_composition_config path tp1 c1 cfg1) "cluster"
      = dictGet (run_v2_composition_config path tp2 c2 cfg2) "cluster"
  ∧ dictGet (run_v2_composition_config path tp1 c1 cfg1) "cluster"
      = some (ConfigValue.str ("auto_generated_" ++ cluster_id path))
  ∧ (cluster_id path).length = 6
  ∧ cluster_id "clusters/qe1.yaml"
      ≠ cluster_id "data/env=dev/region=va6/project=ee/cluster=experiments" := by
  refine ⟨?_, ?_, cluster_id_length path, by decide⟩
  · unfold run_v2_composition_config
    rw [dictGet_dictSet_self, dictGet_dictSet_self]
  · unfold run_v2_composition_config
    rw [dictGet_dictSet_self]

/-- Witness for C7: two invocations at the same path with different
compositions, terraform paths and configurations inject the identical
6-character identity. -/
theorem identity_deterministic_witness :
    dictGet (run_v2_composition_config "clusters/qe1.yaml" "t1/" "network" []) "cluster"
      = dictGet (run_v2_composition_config "clusters/qe1.yaml" "t2/" "compute"
          [("region", ConfigValue.str "va6")]) "cluster"
  ∧ (cluster_id "clusters/qe1.yaml").length = 6 :=
  ⟨(identity_deterministic "clusters/qe1.yaml" "t1/" "t2/" "network" "compute" []
      [("region", ConfigValue.str "va6")]).1,
   (identity_deterministic "clusters/qe1.yaml" "t1/" "t2/" "network" "compute" []
      [("region", ConfigValue.str "va6")]).2.2.1⟩

/-- C9: Per-unit injection frame.  `run_v2_composition` replaces the
`terraform` key with a fresh mapping holding exactly the unit's execution
path and the fixed variables-file name, sets the `cluster` key, and leaves
every other key of the shared configuration unchanged. -/
theorem injection_frame (path tp c : String) (config : Dict) :
    dictGet (run_v2_composition_config path tp c config) "terraform"
      = some (ConfigValue.table
          [("path", ConfigValue.str (tp ++ c)),
           ("variables_file", ConfigValue.str "variables.tfvars.json")])
  ∧ dictGet (run_v2_composition_config path tp c config) "cluster"
      = some (ConfigValue.str ("auto_generated_" ++ cluster_id path))
  ∧ ∀ k, k ≠ "terraform" → k ≠ "cluster" →
      dictGet (run_v2_composition_config path tp c config) k = dictGet config k := by
  refine ⟨?_, ?_, ?_⟩
  · unfold run_v2_composition_config
    rw [dictGet_dictSet_ne _ _ _ _ (by decide), dictGet_dictSet_self]
  · unfold run_v2_composition_config
    rw [dictGet_dictSet_self]
  · intro k h1 h2
    unfold run_v2_composition_config
    rw [dictGet_dictSet_ne _ _ _ _ h2, dictGet_dictSet_ne _ _ _ _ h1]

/-- Witness for C9: at a concrete configuration, the `terraform` and
`cluster` keys take the injected values and an unrelated key (`region`)
keeps its prior value. -/
theorem injection_frame_witness :
    dictGet (run_v2_composition_config "clusters/qe1.yaml" "t/" "network"
        [("region", ConfigValue.str "va6")]) "terraform"
      = some (ConfigValue.table
          [("path", ConfigValue.str ("t/" ++ "network")),
           ("variables_file", ConfigValue.str "variables.tfvars.json")])
  ∧ dictGet (run_v2_composition_config "clusters/qe1.yaml" "t/" "network"
        [("region", ConfigValue.str "va6")]) "region"
      = dictGet [("region", ConfigValue.str "va6")] "region" :=
  ⟨(injection_frame "clusters/qe1.yaml" "t/" "network"
      [("region", ConfigValue.str "va6")]).1,
   (injection_frame "clusters/qe1.yaml" "t/" "network"
      [("region", ConfigValue.str "va6")]).2.2 "region" (by decide) (by decide)⟩

/-- C10: Constant identity across a run.  Every iteration injects the same
`cluster` value: the literal prefix `auto_generated_` followed by the
first 6 hex characters of the MD5 digest of the cluster configuration
path, independent of the composition and of the accumulated configuration;
at the example path `clusters/qe1.yaml` the value is
`auto_generated_86852a` (MD5 `86852a14…`). -/
theorem constant_identity_across_run (path tp c1 c2 : String) (cfg1 cfg2 : Dict) :
    dictGet (run_v2_composition_config path tp c1 cfg1) "cluster"
      = some (ConfigValue.str
          ("auto_generated_" ++ strTake (md5Hex (utf8Encode path)) 6))
  ∧ dictGet (run_v2_composition_config path tp c1 cfg1) "cluster"
      = dictGet (run_v2_composition_config path tp c2 cfg2) "cluster"
  ∧ dictGet (run_v2_composition_config "clusters/qe1.yaml" tp c1 cfg1) "cluster"
      = some (ConfigValue.str "auto_generated_86852a") := by
  refine ⟨?_, ?_, ?_⟩
  · unfold run_v2_composition_config cluster_id
    rw [dictGet_dictSet_self]
  · unfold run_v2_composition_config
    rw [dictGet_dictSet_self, dictGet_dictSet_self]
  · unfold run_v2_composition_config
    rw [dictGet_dictSet_self]
    have h1 : cluster_id "clusters/qe1.yaml" = "86852a" := by decide
    have h2 : "auto_generated_" ++ "86852a" = "auto_generated_86852a" := by decide
    rw [h1, h2]

/-- Witness for C10: at the example path, the injected identity is the
literal `auto_generated_86852a`. -/
theorem constant_identity_across_run_witness :
    dictGet (run_v2_composition_config "clusters/qe1.yaml" "t/" "network" []) "cluster"
      = some (ConfigValue.str "auto_generated_86852a") :=
  (constant_identity_across_run "clusters/qe1.yaml" "t/" "network" "compute" [] []).2.2

theorem setEnvVar_not_mem_integration (resolve : String → Bool → List String)
    (genOk : String → Bool) (execStatus : String → Int) (args : Args)
    (ccPath : String) (config : Dict) (n v : String) :
    Event.setEnvVar n v ∉
      (run_v2_integration resolve genOk execStatus args ccPath config).events := by
  by_cases h :
      (resolve (joinTrailingSlash ccPath) (args.subcommand == "destroy")).length = 0
  · simp [run_v2_integration, h]
  · simp [run_v2_integration, run_v2_compositions, h]
    exact setEnvVar_not_mem_loop genOk execStatus ccPath _ n v _ config false 0

/-- C5: Mode dispatch.  After a passing version gate, `run` prepares the
environment and then branches exactly once on whether the cluster
configuration path is a directory: directory means multi-unit mode
(`run_v2_integration`, whose outcome and trace become the run's), single
file means single-unit mode (the single-unit runner's status is returned
as the run outcome after one delegation to the command generator). -/
theorem mode_dispatch (resolve : String → Bool → List String) (genOk : String → Bool)
    (execStatus : String → Int) (v1Status : Int) (ccp tcp ver : String) (conf : Dict)
    (args : Args) (env : String → Option String)
    (h : check_ops_version ⟨ccp, conf, tcp, ver, true⟩ = Except.ok ()) :
    (run resolve genOk execStatus v1Status ⟨ccp, conf, tcp, ver, true⟩ args env).outcome
      = (run_v2_integration resolve genOk execStatus args ccp conf).outcome
  ∧ (run resolve genOk execStatus v1Status ⟨ccp, conf, tcp, ver, true⟩ args env).events
      = Event.setEnvVar "TF_CLI_CONFIG_FILE" ((env "TF_CLI_CONFIG_FILE").getD tcp)
          :: (run_v2_integration resolve genOk execStatus args ccp conf).events
  ∧ (run resolve genOk execStatus v1Status ⟨ccp, conf, tcp, ver, false⟩ args env).outcome
      = Except.ok v1Status
  ∧ (run resolve genOk execStatus v1Status ⟨ccp, conf, tcp, ver, false⟩ args env).events
      = [Event.setEnvVar "TF_CLI_CONFIG_FILE" ((env "TF_CLI_CONFIG_FILE").getD tcp),
         Event.runSingleComposition] := by
  have h2 : check_ops_version ⟨ccp, conf, tcp, ver, false⟩ = Except.ok () := h
  refine ⟨?_, ?_, ?_, ?_⟩ <;> simp [run, h, h2]

/-- Witness for C5: with a benign configuration, a directory path runs the
multi-unit integration and a file path returns the single-unit status 7. -/
theorem mode_dispatch_witness :
    (run (fun _ _ => ["network"]) (fun _ => true) (fun _ => 0) 7
        ⟨"p", [], "cfg", "1.0.0", true⟩ ⟨"plan", none⟩ (fun _ => none)).outcome
      = (run_v2_integration (fun _ _ => ["network"]) (fun _ => true) (fun _ => 0)
          ⟨"plan", none⟩ "p" []).outcome
  ∧ (run (fun _ _ => ["network"]) (fun _ => true) (fun _ => 0) 7
        ⟨"p", [], "cfg", "1.0.0", false⟩ ⟨"plan", none⟩ (fun _ => none)).outcome
      = Except.ok 7 :=
  ⟨(mode_dispatch (fun _ _ => ["network"]) (fun _ => true) (fun _ => 0) 7
      "p" "cfg" "1.0.0" [] ⟨"plan", none⟩ (fun _ => none) rfl).1,
   (mode_dispatch (fun _ _ => ["network"]) (fun _ => true) (fun _ => 0) 7
      "p" "cfg" "1.0.0" [] ⟨"plan", none⟩ (fun _ => none) rfl).2.2.1⟩

/-- C6: Environment preparation.  After a passing version gate, `run`
resolves the shared tool configuration path as the pre-existing
`TF_CLI_CONFIG_FILE` value when set and the `ops_config` default
otherwise, then sets the variable to the resolved value: the set is the
first event of the run — before any mode event and any generation or
execution — and the only environment write of the whole run; when the
variable was already set every environment entry is left unchanged. -/
theorem env_preparation (resolve : String → Bool → List String) (genOk : String → Bool)
    (execStatus : String → Int) (v1Status : Int) (ccp tcp ver : String) (conf : Dict)
    (isD : Bool) (args : Args) (env : String → Option String)
    (h : check_ops_version ⟨ccp, conf, tcp, ver, isD⟩ = Except.ok ()) :
    (run resolve genOk execStatus v1Status ⟨ccp, conf, tcp, ver, isD⟩ args env).env
        "TF_CLI_CONFIG_FILE" = some ((env "TF_CLI_CONFIG_FILE").getD tcp)
  ∧ (∀ v, env "TF_CLI_CONFIG_FILE" = some v →
      (env "TF_CLI_CONFIG_FILE").getD tcp = v
      ∧ ∀ k, (run resolve genOk execStatus v1Status ⟨ccp, conf, tcp, ver, isD⟩ args env).env k
          = env k)
  ∧ (env "TF_CLI_CONFIG_FILE" = none → (env "TF_CLI_CONFIG_FILE").getD tcp = tcp)
  ∧ (run resolve genOk execStatus v1Status ⟨ccp, conf, tcp, ver, isD⟩ args env).events.head?
      = some (Event.setEnvVar "TF_CLI_CONFIG_FILE" ((env "TF_CLI_CONFIG_FILE").getD tcp))
  ∧ ∀ n v, Event.setEnvVar n v ∉
      (run resolve genOk execStatus v1Status ⟨ccp, conf, tcp, ver, isD⟩ args env).events.tail := by
  refine ⟨?_, ?_, ?_, ?_, ?_⟩
  · cases isD <;> simp [run, h, envSet]
  · intro v hv
    refine ⟨by simp [hv], ?_⟩
    intro k
    have henv : ∀ k, envSet env "TF_CLI_CONFIG_FILE"
        ((env "TF_CLI_CONFIG_FILE").getD tcp) k = env k := by
      intro k2
      unfold envSet
      by_cases hk : k2 == "TF_CLI_CONFIG_FILE"
      · have : k2 = "TF_CLI_CONFIG_FILE" := eq_of_beq hk
        simp [hk, this, hv]
      · simp [hk]
    cases isD <;> simp [run, h, henv k]
  · intro hv
    simp [hv]
  · cases isD <;> simp [run, h]
  · intro n v
    cases isD <;> simp [run, h]
    exact setEnvVar_not_mem_integration resolve genOk execStatus args ccp conf n v

/-- Witness for C6: with `TF_CLI_CONFIG_FILE` preset to `preset.rc`, the
run keeps the preset value (the whole environment is unchanged) and the
set event leads the trace; an unrelated variable keeps its value. -/
theorem env_preparation_witness :
    (run (fun _ _ => ["network"]) (fun _ => true) (fun _ => 0) 0
        ⟨"p", [], "default.rc", "1.0.0", false⟩ ⟨"plan", none⟩
        (fun k => if k == "TF_CLI_CONFIG_FILE" then some "preset.rc" else none)).env
        "TF_CLI_CONFIG_FILE"
      = some (((fun k : String =>
          if k == "TF_CLI_CONFIG_FILE" then some "preset.rc" else none)
            "TF_CLI_CONFIG_FILE").getD "default.rc")
  ∧ ((fun k : String => if k == "TF_CLI_CONFIG_FILE" then some "preset.rc" else none)
        "TF_CLI_CONFIG_FILE").getD "default.rc" = "preset.rc"
  ∧ (run (fun _ _ => ["network"]) (fun _ => true) (fun _ => 0) 0
        ⟨"p", [], "default.rc", "1.0.0", false⟩ ⟨"plan", none⟩
        (fun k => if k == "TF_CLI_CONFIG_FILE" then some "preset.rc" else none)).env "HOME"
      = (fun k : String => if k == "TF_CLI_CONFIG_FILE" then some "preset.rc" else none) "HOME"
  ∧ Event.setEnvVar "HOME" "x" ∉
      (run (fun _ _ => ["network"]) (fun _ => true) (fun _ => 0) 0
        ⟨"p", [], "default.rc", "1.0.0", false⟩ ⟨"plan", none⟩
        (fun k => if k == "TF_CLI_CONFIG_FILE" then some "preset.rc" else none)).events.tail :=
  ⟨(env_preparation (fun _ _ => ["network"]) (fun _ => true) (fun _ => 0) 0
      "p" "default.rc" "1.0.0" [] false ⟨"plan", none⟩
      (fun k => if k == "TF_CLI_CONFIG_FILE" then some "preset.rc" else none) rfl).1,
   ((env_preparation (fun _ _ => ["network"]) (fun _ => true) (fun _ => 0) 0
      "p" "default.rc" "1.0.0" [] false ⟨"plan", none⟩
      (fun k => if k == "TF_CLI_CONFIG_FILE" then some "preset.rc" else none) rfl).2.1
        "preset.rc" rfl).1,
   ((env_preparation (fun _ _ => ["network"]) (fun _ => true) (fun _ => 0) 0
      "p" "default.rc" "1.0.0" [] false ⟨"plan", none⟩
      (fun k => if k == "TF_CLI_CONFIG_FILE" then some "preset.rc" else none) rfl).2.1
        "preset.rc" rfl).2 "HOME",
   (env_preparation (fun _ _ => ["network"]) (fun _ => true) (fun _ => 0) 0
      "p" "default.rc" "1.0.0" [] false ⟨"plan", none⟩
      (fun k => if k == "TF_CLI_CONFIG_FILE" then some "preset.rc" else none) rfl).2.2.2.2
        "HOME" "x"⟩

/-! ## Sanity checks of the hash embedding (RFC 1321 test vectors) -/

theorem md5_testvector_empty : md5Hex (utf8Encode "") = "d41d8cd98f00b204e9800998ecf8427e" := by
  decide

theorem md5_testvector_abc : md5Hex (utf8Encode "abc") = "900150983cd24fb0d6963f7d28e17f72" := by
  decide

end OpsCli
